import Mathlib

/-!
# Verification of the QCHAT backend against its specification

Shallow embedding of the Q-CHAT-10 backend (Python) in Lean 4:

* `src/backend/app/scoring.py` — scoring rules, total score, risk assessment;
* `src/backend/app/workflows/qchat_assistant_graph.py` — the per-question
  assistant workflow nodes and the intent router;
* `src/backend/app/workflows/qchat_assistant_state.py` — the workflow state.

Python dicts with optional keys are embedded as structures with `Option`
fields (`none` = key absent / value `None`); Python truthiness tests on
ints and strings are made explicit (`≠ 0`, `≠ ""`).  Each workflow node is
embedded as a pure function from the fields of the state that it reads,
plus the outcome of its external chain invocation (`Except Unit R`, where
`.error` stands for any internal exception raised by the chain), to a
`StateUpdate` record in which `none` means "the returned dict does not
contain this key".
-/

namespace QCHAT

/-! ## Scoring (`scoring.py`) -/

/-- `SCORING_RULES` from `scoring.py`: per question number, the options
that score one point.  Questions 1–9 score on C/D/E; question 10 is
reversed and scores on A/B/C. -/
def SCORING_RULES : List (Int × List String) :=
  [ (1, ["C", "D", "E"]),
    (2, ["C", "D", "E"]),
    (3, ["C", "D", "E"]),
    (4, ["C", "D", "E"]),
    (5, ["C", "D", "E"]),
    (6, ["C", "D", "E"]),
    (7, ["C", "D", "E"]),
    (8, ["C", "D", "E"]),
    (9, ["C", "D", "E"]),
    (10, ["A", "B", "C"]) ]

/-- `REFERRAL_THRESHOLD` from `scoring.py`. -/
def REFERRAL_THRESHOLD : Int := 3

/-- `calculate_point` from `scoring.py`: a point is scored iff the
question number has a rule and the selected option is in that rule. -/
def calculate_point (question_number : Int) (selected_option : String) : Bool :=
  match SCORING_RULES.lookup question_number with
  | none => false
  | some opts => opts.contains selected_option

/-- One element of the `answers` list passed to `calculate_total_score`:
a dict whose keys `question_number` and `selected_option` may be absent
(`none`) or hold a value. -/
structure Answer where
  question_number : Option Int
  selected_option : Option String
deriving DecidableEq, Repr

/-- The per-answer condition of the loop body of `calculate_total_score`:
`q_num and option and calculate_point(q_num, option)` — both keys present,
truthy (`≠ 0`, `≠ ""`), and `calculate_point` holds. -/
def answer_scores (answer : Answer) : Bool :=
  match answer.question_number, answer.selected_option with
  | some q_num, some option => q_num != 0 && option != "" && calculate_point q_num option
  | _, _ => false

/-- `calculate_total_score` from `scoring.py`: fold the loop
`score += 1` over the answers whose loop condition holds. -/
def calculate_total_score (answers : List Answer) : Int :=
  answers.foldl (fun score answer => if answer_scores answer then score + 1 else score) 0

/-- The per-question rule applied to a single entry, as the spec phrases
it: the entry scores a point iff both keys are present and
`calculate_point` holds on their values.  (In Python,
`calculate_point(None, x)` and `calculate_point(0, x)` are `False`
because neither `None` nor `0` is a key of `SCORING_RULES`, and
`calculate_point(q, "")` is `False` because `""` is in no rule; so this
coincides with `answer_scores`, which is proved below.) -/
def entry_point_rule (answer : Answer) : Bool :=
  match answer.question_number, answer.selected_option with
  | some q_num, some option => calculate_point q_num option
  | _, _ => false

/-- `assess_risk`'s result dict from `scoring.py`. -/
structure RiskAssessment where
  total_score : Int
  max_score : Int
  threshold : Int
  recommend_referral : Bool
  risk_level : String
  recommendations : List String
deriving DecidableEq, Repr

/-- The high-risk recommendation list from `assess_risk`. -/
def high_recommendations : List String :=
  [ "Your child's score suggests a need for further evaluation.",
    "We recommend scheduling an appointment with a pediatrician or developmental specialist.",
    "Early intervention can make a significant difference in outcomes.",
    "Please bring this report to your healthcare provider.",
    "Consider asking for a referral to a multidisciplinary assessment team." ]

/-- The low-risk recommendation list from `assess_risk`. -/
def low_recommendations : List String :=
  [ "Your child's score is within the typical range.",
    "Continue to monitor your child's development.",
    "If you have ongoing concerns, discuss them with your pediatrician.",
    "Regular developmental checkups are important for all children." ]

/-- `assess_risk` from `scoring.py`. -/
def assess_risk (total_score : Int) : RiskAssessment :=
  let recommend_referral : Bool := decide (total_score > REFERRAL_THRESHOLD)
  let risk_level : String := if recommend_referral then "high" else "low"
  let recommendations : List String :=
    if recommend_referral then high_recommendations else low_recommendations
  { total_score := total_score
    max_score := 10
    threshold := REFERRAL_THRESHOLD
    recommend_referral := recommend_referral
    risk_level := risk_level
    recommendations := recommendations }

/-! ## Workflow data model (`qchat_assistant_state.py`, `qchat_assistant_graph.py`) -/

/-- An entry of `conversation_history`: a dict with `role` and `content`. -/
structure ChatMessage where
  role : String
  content : String
deriving DecidableEq, Repr

/-- An entry of the `options` list: a dict with optional `value`, `label`
and `example` keys. -/
structure QuestionOption where
  value : Option String
  label : Option String
  «example» : Option String
deriving DecidableEq, Repr

/-- The fields of `QChatAssistantState` read by the embedded nodes.  The
TypedDict is declared `total=False`, so every key may be absent; nodes
read keys through `state.get(key, default)`, which each embedded node
applies itself (`getD`).  The state declares NO attempt counter field:
this record mirrors the TypedDict exactly for the fields the nodes touch. -/
structure AssistantState where
  current_question_number : Option Int
  language : Option String
  question_text : Option String
  options : Option (List QuestionOption)
  conversation_history : Option (List ChatMessage)
  current_message : Option String
  parent_name : Option String
  child_name : Option String
deriving Repr

/-- The partial state update returned by a node: each field is `some v`
when the returned dict contains the key with value `v`, and `none` when
the dict omits the key (so the state channel keeps its previous value). -/
structure StateUpdate where
  last_intent : Option String
  last_emotion : Option String
  extracted_option : Option String
  extraction_confidence : Option Rat
  extraction_reasoning : Option String
  is_answer_complete : Option Bool
  bot_response : Option String
  conversation_history : Option (List ChatMessage)
  next_question_number : Option Int
  current_message : Option String
deriving DecidableEq, Repr

/-- The empty update: a node returning `{}` (no keys). -/
def StateUpdate.empty : StateUpdate :=
  ⟨none, none, none, none, none, none, none, none, none, none⟩

/-- Result dict of the intent chain (keys may be absent; the node applies
`result.get("intent", "other")` and `result.get("emotion", "neutral")`). -/
structure IntentResult where
  intent : Option String
  emotion : Option String
deriving DecidableEq, Repr

/-- Result dict of the answer-extraction chain. -/
structure ExtractionResult where
  option : Option String
  confidence : Option Rat
  reasoning : Option String
deriving DecidableEq, Repr

/-- Result dict of the clarification chain. -/
structure ClarificationResult where
  clarification_text : Option String
deriving DecidableEq, Repr

/-- Result dict of the welcome chain. -/
structure WelcomeResult where
  message : Option String
deriving DecidableEq, Repr

/-- Result dict of the redirect chain. -/
structure RedirectResult where
  redirect_message : Option String
deriving DecidableEq, Repr

/-! ## Workflow nodes (`qchat_assistant_graph.py`) -/

/-- `classify_intent_node`: on a successful chain call, store the
classified intent and emotion (with dict-get defaults `"other"` /
`"neutral"`); on ANY internal exception, fall back to intent
`"answering"`, emotion `"neutral"`. -/
def classify_intent_node (outcome : Except Unit IntentResult) : StateUpdate :=
  match outcome with
  | .ok result =>
      { StateUpdate.empty with
          last_intent := some (result.intent.getD "other")
          last_emotion := some (result.emotion.getD "neutral") }
  | .error _ =>
      { StateUpdate.empty with
          last_intent := some "answering"
          last_emotion := some "neutral" }

/-- `extract_qchat_answer_node`: extract an A–E option from the user
description.  On success with a definitive option, record it, mark the
answer complete, append an acknowledgment naming the parent and the
chosen letter, and set the next question number — the returned dict does
NOT contain `current_message`.  On an unclear result or ANY internal
exception, record `"unclear"` with `is_answer_complete = False` and clear
`current_message`. -/
def extract_qchat_answer_node (state : AssistantState)
    (outcome : Except Unit ExtractionResult) : StateUpdate :=
  let language := state.language.getD "en"
  let conversation_history := state.conversation_history.getD []
  match outcome with
  | .ok result =>
      let option := result.option.getD "unclear"
      let confidence := result.confidence.getD 0
      let reasoning := result.reasoning.getD ""
      let is_complete := option != "unclear" && (["A", "B", "C", "D", "E"]).contains option
      let current_q := state.current_question_number.getD 1
      if is_complete then
        let parent_name := state.parent_name.getD ""
        let ack_msg :=
          if language == "ar" then
            "شكراً لك" ++ (if parent_name != "" then " " ++ parent_name else "")
              ++ "! لقد فهمت. سأسجل الخيار " ++ option ++ "."
          else
            "Thank you" ++ (if parent_name != "" then " " ++ parent_name else "")
              ++ "! I understand. I'll record Option " ++ option ++ "."
        { StateUpdate.empty with
            extracted_option := some option
            extraction_confidence := some confidence
            extraction_reasoning := some reasoning
            is_answer_complete := some true
            bot_response := some ack_msg
            conversation_history := some (conversation_history ++ [⟨"assistant", ack_msg⟩])
            next_question_number := some (current_q + 1) }
      else
        { StateUpdate.empty with
            extracted_option := some option
            extraction_confidence := some confidence
            extraction_reasoning := some reasoning
            is_answer_complete := some false
            current_message := some "" }
  | .error _ =>
      { StateUpdate.empty with
          extracted_option := some "unclear"
          extraction_confidence := some 0
          is_answer_complete := some false
          current_message := some "" }

/-- `handle_clarification_node`: produce a clarification, appending it to
the history unless it repeats the most recent assistant message; on ANY
internal exception, append a fixed templated fallback.  Every exit sets
`current_message` to `""`. -/
def handle_clarification_node (state : AssistantState)
    (outcome : Except Unit ClarificationResult) : StateUpdate :=
  let question_text := state.question_text.getD ""
  let language := state.language.getD "en"
  let conversation_history := state.conversation_history.getD []
  match outcome with
  | .ok result =>
      let clarification_text := result.clarification_text.getD ""
      let last_assistant_msg :=
        (conversation_history.reverse.find? (fun m => m.role == "assistant")).map
          (fun m => m.content)
      if !conversation_history.isEmpty && last_assistant_msg == some clarification_text then
        { StateUpdate.empty with
            bot_response := some clarification_text
            conversation_history := some conversation_history
            current_message := some "" }
      else
        { StateUpdate.empty with
            bot_response := some clarification_text
            conversation_history :=
              some (conversation_history ++ [⟨"assistant", clarification_text⟩])
            current_message := some "" }
  | .error _ =>
      let fallback :=
        if language == "ar" then "دعني أوضح: " ++ question_text
        else "Let me clarify: " ++ question_text
      { StateUpdate.empty with
          bot_response := some fallback
          conversation_history := some (conversation_history ++ [⟨"assistant", fallback⟩])
          current_message := some "" }

/-- `handle_asking_question_node` reuses the clarification logic verbatim. -/
def handle_asking_question_node (state : AssistantState)
    (outcome : Except Unit ClarificationResult) : StateUpdate :=
  handle_clarification_node state outcome

/-- The `[child_name]` placeholder substitution used by several nodes:
replace with the child's name when present, otherwise with
`"your child"`.  (The Python guards the second branch with a substring
test, which is redundant: replacing an absent pattern is the identity.) -/
def replace_child_name (text : String) (child_name : String) : String :=
  if child_name != "" then text.replace "[child_name]" child_name
  else text.replace "[child_name]" "your child"

/-- The example-selection loop of `handle_greeting_node` and
`handle_off_topic_node`: the first option with `value == "A"` and a
truthy `example`, with `[child_name]` substituted. -/
def first_option_a_example (options : List QuestionOption) (child_name : String) : String :=
  match options.find? (fun opt =>
      opt.value == some "A" && opt.«example» != none && opt.«example» != some "") with
  | some opt => replace_child_name (opt.«example».getD "") child_name
  | none => ""

/-- `handle_greeting_node`: acknowledge the greeting via the welcome
chain; an empty chain message raises and is caught, so it falls back to
the fixed templated greeting, like ANY internal exception.  Every exit
appends the message and sets `current_message` to `""`. -/
def handle_greeting_node (state : AssistantState)
    (outcome : Except Unit WelcomeResult) : StateUpdate :=
  let question_text := state.question_text.getD ""
  let language := state.language.getD "en"
  let parent_name := state.parent_name.getD ""
  let child_name := state.child_name.getD ""
  let options := state.options.getD []
  let conversation_history := state.conversation_history.getD []
  let display_question := replace_child_name question_text child_name
  let ex := first_option_a_example options child_name
  let fallback :=
    if language == "ar" then
      let greeting_ack :=
        "مرحباً" ++ (if parent_name != "" then " " ++ parent_name else "") ++ "، سعيد بلقائك!"
      let question_asking :=
        if ex != "" then " دعني أسألك: " ++ display_question ++ " مثال: " ++ ex ++ "."
        else " دعني أسألك: " ++ display_question
      greeting_ack ++ question_asking
    else
      let greeting_ack :=
        "Hello" ++ (if parent_name != "" then " " ++ parent_name else "") ++ ", nice to meet you!"
      let question_asking :=
        if ex != "" then " Let me ask: " ++ display_question ++ " Example: " ++ ex ++ "."
        else " Let me ask: " ++ display_question
      greeting_ack ++ question_asking
  let message :=
    match outcome with
    | .ok result =>
        let welcome_message := result.message.getD ""
        if welcome_message != "" then welcome_message else fallback
    | .error _ => fallback
  { StateUpdate.empty with
      bot_response := some message
      conversation_history := some (conversation_history ++ [⟨"assistant", message⟩])
      current_message := some "" }

/-- `handle_off_topic_node`: answer briefly via the redirect chain; an
empty chain message raises and is caught, so it falls back to the fixed
templated redirect, like ANY internal exception.  Every exit appends the
message and sets `current_message` to `""`. -/
def handle_off_topic_node (state : AssistantState)
    (outcome : Except Unit RedirectResult) : StateUpdate :=
  let question_text := state.question_text.getD ""
  let language := state.language.getD "en"
  let parent_name := state.parent_name.getD ""
  let child_name := state.child_name.getD ""
  let options := state.options.getD []
  let conversation_history := state.conversation_history.getD []
  let display_question := replace_child_name question_text child_name
  let ex := first_option_a_example options child_name
  let fallback :=
    if language == "ar" then
      if ex != "" then
        "شكراً لسؤالك" ++ (if parent_name != "" then " " ++ parent_name else "")
          ++ "، أفهم اهتمامك. دعني أسألك: " ++ display_question ++ " مثال: " ++ ex ++ "."
      else
        "شكراً لسؤالك" ++ (if parent_name != "" then " " ++ parent_name else "")
          ++ "، أفهم اهتمامك. دعني أسألك: " ++ display_question
    else
      if ex != "" then
        "Thanks for your question" ++ (if parent_name != "" then " " ++ parent_name else "")
          ++ ", I understand your concern. Let me ask: " ++ display_question
          ++ " Example: " ++ ex ++ "."
      else
        "Thanks for your question" ++ (if parent_name != "" then " " ++ parent_name else "")
          ++ ", I understand your concern. Let me ask: " ++ display_question
  let message :=
    match outcome with
    | .ok result =>
        let redirect_message := result.redirect_message.getD ""
        if redirect_message != "" then redirect_message else fallback
    | .error _ => fallback
  { StateUpdate.empty with
      bot_response := some message
      conversation_history := some (conversation_history ++ [⟨"assistant", message⟩])
      current_message := some "" }

/-- Python `l[-3:]`: the last `n` elements (the whole list when shorter). -/
def last_n (n : Nat) (l : List ChatMessage) : List ChatMessage :=
  l.drop (l.length - n)

/-- `await_user_input_node`, API mode: `user_input` is the effective user
message (after any `interrupt`, which blocks for real-time input and is
outside this embedding).  A non-empty message is appended as a user turn
unless its exact content already appears with role `"user"` among the
last 3 history entries; `current_message` is set to the input. -/
def await_user_input_node (conversation_history : List ChatMessage)
    (user_input : String) : StateUpdate :=
  let is_duplicate :=
    (last_n 3 conversation_history).any
      (fun msg => msg.role == "user" && msg.content == user_input)
  let new_history :=
    if user_input != "" && !is_duplicate then
      conversation_history ++ [⟨"user", user_input⟩]
    else conversation_history
  { StateUpdate.empty with
      current_message := some user_input
      conversation_history := some new_history }

/-! ## Routing (`qchat_assistant_graph.py`) -/

/-- The `routing_map` literal of `route_by_intent`. -/
def routing_map : List (String × String) :=
  [ ("answering", "extract_qchat_answer"),
    ("clarification", "handle_clarification"),
    ("asking_question", "handle_asking_question"),
    ("question_related_query", "handle_asking_question"),
    ("greeting", "handle_greeting"),
    ("off_topic", "handle_off_topic"),
    ("other", "handle_clarification") ]

/-- `route_by_intent`: `state.get("last_intent", "other")`, then
`routing_map.get(intent, "handle_clarification")`.  The conditional
edges of `create_qchat_assistant_graph` map each returned name to the
node of the same name. -/
def route_by_intent (last_intent : Option String) : String :=
  let intent := last_intent.getD "other"
  (routing_map.lookup intent).getD "handle_clarification"

/-! ## Helper lemmas about the scoring functions -/

/-- `SCORING_RULES` has no key outside `1..10`. -/
lemma lookup_none_of_out (q : Int) (h : q < 1 ∨ 10 < q) :
    SCORING_RULES.lookup q = none := by
  simp only [SCORING_RULES, List.lookup]
  repeat' split
  all_goals first
    | rfl
    | (simp only [beq_iff_eq] at *; omega)

/-- Every value of `SCORING_RULES` is one of the two rule lists. -/
lemma scoring_rules_lookup_cases (q : Int) :
    SCORING_RULES.lookup q = none ∨
    SCORING_RULES.lookup q = some ["C", "D", "E"] ∨
    SCORING_RULES.lookup q = some ["A", "B", "C"] := by
  simp only [SCORING_RULES, List.lookup]
  repeat' split
  all_goals simp

/-- A scored point pins the question number inside `1..10`. -/
lemma calculate_point_bounds {q : Int} {o : String}
    (h : calculate_point q o = true) : 1 ≤ q ∧ q ≤ 10 := by
  by_contra hc
  have hout : q < 1 ∨ 10 < q := by omega
  rw [calculate_point, lookup_none_of_out q hout] at h
  exact Bool.false_ne_true h

/-- The empty string is in no scoring rule. -/
lemma calculate_point_empty_option (q : Int) : calculate_point q "" = false := by
  rcases scoring_rules_lookup_cases q with h | h | h <;>
    simp [calculate_point, h]

/-- The truthiness guards of the `calculate_total_score` loop are
redundant with respect to `calculate_point`: the loop condition agrees
with the per-question rule on every entry. -/
lemma answer_scores_eq_entry_point_rule (a : Answer) :
    answer_scores a = entry_point_rule a := by
  rcases a with ⟨qn, so⟩
  cases qn with
  | none => rfl
  | some q =>
    cases so with
    | none => rfl
    | some o =>
      simp only [answer_scores, entry_point_rule]
      by_cases hq : q = 0
      · subst hq
        simp [calculate_point, SCORING_RULES, List.lookup]
      · by_cases ho : o = ""
        · subst ho
          simp [calculate_point_empty_option]
        · simp [hq, ho]

/-- Unfolding the `calculate_total_score` fold into a count. -/
lemma foldl_score_eq (l : List Answer) (s : Int) :
    l.foldl (fun score answer => if answer_scores answer then score + 1 else score) s
      = s + l.countP answer_scores := by
  induction l generalizing s with
  | nil => simp
  | cons a t ih =>
      simp only [List.foldl_cons, List.countP_cons, ih]
      by_cases h : answer_scores a = true
      · simp [h]
        ring
      · simp [h]

/-- `calculate_total_score` counts the entries satisfying the loop
condition. -/
lemma total_eq_countP (l : List Answer) :
    calculate_total_score l = (l.countP answer_scores : Int) := by
  simp [calculate_total_score, foldl_score_eq]

/-- `calculate_total_score` counts the entries scoring under the
per-question rule. -/
lemma total_eq_countP_rule (l : List Answer) :
    calculate_total_score l = (l.countP entry_point_rule : Int) := by
  rw [total_eq_countP]
  congr 1
  exact List.countP_congr (fun a _ => by rw [answer_scores_eq_entry_point_rule a])

/-- The ten possible `question_number` values of scoring entries. -/
def scoring_question_numbers : List (Option Int) :=
  [some 1, some 2, some 3, some 4, some 5, some 6, some 7, some 8, some 9, some 10]

/-- A scoring entry's `question_number` is one of the ten keys. -/
lemma question_number_mem_of_scores {a : Answer} (h : answer_scores a = true) :
    a.question_number ∈ scoring_question_numbers := by
  rcases a with ⟨qn, so⟩
  cases qn with
  | none => cases so <;> simp [answer_scores] at h
  | some q =>
    cases so with
    | none => simp [answer_scores] at h
    | some o =>
      simp only [answer_scores, Bool.and_eq_true] at h
      obtain ⟨⟨-, -⟩, hp⟩ := h
      obtain ⟨h1, h2⟩ := calculate_point_bounds hp
      interval_cases q <;> simp [scoring_question_numbers]

/-- When the `question_number` values are pairwise distinct, at most ten
entries can score. -/
lemma countP_le_ten (l : List Answer)
    (hnd : (l.map Answer.question_number).Nodup) :
    l.countP answer_scores ≤ 10 := by
  classical
  have hcount : l.countP answer_scores = (l.filter answer_scores).length :=
    l.countP_eq_length_filter answer_scores
  have hsub : ((l.filter answer_scores).map Answer.question_number).Sublist
      (l.map Answer.question_number) := (l.filter_sublist).map _
  have hnd' : ((l.filter answer_scores).map Answer.question_number).Nodup :=
    hnd.sublist hsub
  have hss : (l.filter answer_scores).map Answer.question_number ⊆
      scoring_question_numbers := by
    intro x hx
    rcases List.mem_map.1 hx with ⟨a, haf, rfl⟩
    exact question_number_mem_of_scores (List.mem_filter.1 haf).2
  have hle := (hnd'.subperm hss).length_le
  rw [List.length_map] at hle
  rw [hcount]
  exact hle.trans (by simp [scoring_question_numbers])

/-! ## Claims about the scoring functions -/

/-- **C1.** For every question number `q` in `1..10` and every option
`o ∈ {A,B,C,D,E}`, `calculate_point q o` returns `true` iff (`q` is
between 1 and 9 and `o ∈ {C,D,E}`) or (`q = 10` and `o ∈ {A,B,C}`). -/
theorem calculate_point_rule_spec (q : Int) (o : String)
    (h1 : 1 ≤ q) (h2 : q ≤ 10)
    (ho : o ∈ (["A", "B", "C", "D", "E"] : List String)) :
    calculate_point q o = true ↔
      ((1 ≤ q ∧ q ≤ 9 ∧ o ∈ (["C", "D", "E"] : List String)) ∨
       (q = 10 ∧ o ∈ (["A", "B", "C"] : List String))) := by
  interval_cases q <;> fin_cases ho <;> decide

/-- Witness for C1: question 10, option A scores by the reversed rule. -/
theorem calculate_point_rule_spec_witness :
    calculate_point 10 "A" = true ↔
      ((1 ≤ (10 : Int) ∧ (10 : Int) ≤ 9 ∧ "A" ∈ (["C", "D", "E"] : List String)) ∨
       ((10 : Int) = 10 ∧ "A" ∈ (["A", "B", "C"] : List String))) :=
  calculate_point_rule_spec 10 "A" (by decide) (by decide) (by decide)

/-- **C2.** For every total score `s`, `assess_risk s` recommends
referral iff `s > 3` (false at 3, true at 4), and `risk_level` is
`"high"` exactly when referral is recommended, `"low"` otherwise. -/
theorem assess_risk_spec (s : Int) :
    ((assess_risk s).recommend_referral = true ↔ s > 3) ∧
    (assess_risk s).risk_level =
      (if (assess_risk s).recommend_referral then "high" else "low") ∧
    (assess_risk 3).recommend_referral = false ∧
    (assess_risk 4).recommend_referral = true := by
  refine ⟨?_, rfl, by decide, by decide⟩
  simp [assess_risk, REFERRAL_THRESHOLD]

/-- **C3, as stated, is false**: the total is not bounded by 10 on every
list — eleven answers repeating question 1 with option C score 11. -/
theorem calculate_total_score_exceeds_ten :
    calculate_total_score (List.replicate 11 ⟨some 1, some "C"⟩) = 11 ∧
    ¬(calculate_total_score (List.replicate 11 ⟨some 1, some "C"⟩) ≤ 10) := by
  decide

/-- **C3 (amended).** For every list of answers, `calculate_total_score`
returns exactly the count of entries that score a point under the
per-question rule; hence the total lies between 0 and the list length,
and it lies in the range 0–10 whenever the entries' `question_number`
values are pairwise distinct (in particular for any assessment with one
answer per question).  Lists repeating a question number can exceed 10. -/
theorem calculate_total_score_spec (l : List Answer) :
    calculate_total_score l = (l.countP entry_point_rule : Int) ∧
    0 ≤ calculate_total_score l ∧
    calculate_total_score l ≤ l.length ∧
    ((l.map Answer.question_number).Nodup → calculate_total_score l ≤ 10) := by
  refine ⟨total_eq_countP_rule l, ?_, ?_, ?_⟩
  · rw [total_eq_countP]
    exact_mod_cast Nat.zero_le _
  · rw [total_eq_countP]
    exact_mod_cast l.countP_le_length answer_scores
  · intro hnd
    rw [total_eq_countP]
    exact_mod_cast countP_le_ten l hnd

/-- Witness for C3 (amended): a two-answer assessment with distinct
question numbers scores within 0–10. -/
theorem calculate_total_score_spec_witness :
    (([⟨some 1, some "C"⟩, ⟨some 10, some "A"⟩] : List Answer).map
        Answer.question_number).Nodup ∧
    calculate_total_score [⟨some 1, some "C"⟩, ⟨some 10, some "A"⟩] ≤ 10 :=
  ⟨by decide, (calculate_total_score_spec
      [⟨some 1, some "C"⟩, ⟨some 10, some "A"⟩]).2.2.2 (by decide)⟩

/-- **C8.** `calculate_total_score` is invariant under permutation of
the answers list, and an entry whose `question_number` has no scoring
rule (anything outside `1..10`) contributes nothing to the total. -/
theorem calculate_total_score_perm_ignores_spec :
    (∀ l₁ l₂ : List Answer, l₁.Perm l₂ →
        calculate_total_score l₁ = calculate_total_score l₂) ∧
    (∀ (a : Answer) (l : List Answer) (q : Int),
        a.question_number = some q → (q < 1 ∨ 10 < q) →
        calculate_total_score (a :: l) = calculate_total_score l) := by
  constructor
  · intro l₁ l₂ hp
    rw [total_eq_countP, total_eq_countP, hp.countP_eq]
  · intro a l q hq hout
    have hfalse : answer_scores a = false := by
      rcases a with ⟨qn, so⟩
      simp only at hq
      subst hq
      cases so with
      | none => rfl
      | some o =>
        simp only [answer_scores]
        rw [calculate_point, lookup_none_of_out q hout]
        simp
    rw [total_eq_countP, total_eq_countP, List.countP_cons, hfalse]
    simp

/-- Witness for C8: swapping two answers keeps the total, and an entry
with question number 11 contributes nothing. -/
theorem calculate_total_score_perm_ignores_spec_witness :
    ((([⟨some 1, some "C"⟩, ⟨some 2, some "D"⟩] : List Answer).Perm
        [⟨some 2, some "D"⟩, ⟨some 1, some "C"⟩]) ∧
      calculate_total_score [⟨some 1, some "C"⟩, ⟨some 2, some "D"⟩] =
        calculate_total_score [⟨some 2, some "D"⟩, ⟨some 1, some "C"⟩]) ∧
    calculate_total_score (⟨some 11, some "C"⟩ :: [⟨some 1, some "C"⟩]) =
      calculate_total_score [⟨some 1, some "C"⟩] := by
  have hperm : (([⟨some 1, some "C"⟩, ⟨some 2, some "D"⟩] : List Answer).Perm
      [⟨some 2, some "D"⟩, ⟨some 1, some "C"⟩]) := List.Perm.swap _ _ _
  exact ⟨⟨hperm, calculate_total_score_perm_ignores_spec.1 _ _ hperm⟩,
    calculate_total_score_perm_ignores_spec.2 ⟨some 11, some "C"⟩
      [⟨some 1, some "C"⟩] 11 rfl (by omega)⟩

/-- **C10.** `calculate_total_score` is total over any list of entries
(the embedding is a total function: no code path can raise), and an
entry whose `question_number` or `selected_option` key is missing
(`none`) or falsy (`0`, `""`) contributes 0 to the total. -/
theorem calculate_total_score_safe_spec (a : Answer) (l : List Answer)
    (h : a.question_number = none ∨ a.question_number = some 0 ∨
         a.selected_option = none ∨ a.selected_option = some "") :
    calculate_total_score (a :: l) = calculate_total_score l := by
  have hfalse : answer_scores a = false := by
    rcases a with ⟨qn, so⟩
    rcases h with h | h | h | h <;> simp only at h <;> subst h
    · rfl
    · cases so with
      | none => rfl
      | some o => simp [answer_scores]
    · cases qn <;> rfl
    · cases qn with
      | none => rfl
      | some q => simp [answer_scores, calculate_point_empty_option]
  rw [total_eq_countP, total_eq_countP, List.countP_cons, hfalse]
  simp

/-- Witness for C10: an entry with a missing option key contributes 0. -/
theorem calculate_total_score_safe_spec_witness :
    ((⟨some 1, none⟩ : Answer).question_number = none ∨
     (⟨some 1, none⟩ : Answer).question_number = some 0 ∨
     (⟨some 1, none⟩ : Answer).selected_option = none ∨
     (⟨some 1, none⟩ : Answer).selected_option = some "") ∧
    calculate_total_score [⟨some 1, none⟩, ⟨some 1, some "C"⟩] =
      calculate_total_score [⟨some 1, some "C"⟩] :=
  ⟨Or.inr (Or.inr (Or.inl rfl)),
    calculate_total_score_safe_spec ⟨some 1, none⟩ [⟨some 1, some "C"⟩]
      (Or.inr (Or.inr (Or.inl rfl)))⟩

/-! ## Claims about the workflow -/

/-- **C4.** The dispatcher routes each classified intent to its handler:
`answering` to answer extraction, `clarification` to clarification,
`asking_question` and `question_related_query` to the asking-question
handler, `greeting` to greeting, `off_topic` to off-topic, and every
other intent value (including `skip`, `restart`, `finish`, `exit`,
`incomplete_answer`, `wrong_format`, `refusal`, `other`, a missing
intent, and any string outside the known set) to clarification; the
route always lands on one of the five handlers, so no turn is dropped. -/
theorem route_by_intent_spec :
    route_by_intent (some "answering") = "extract_qchat_answer" ∧
    route_by_intent (some "clarification") = "handle_clarification" ∧
    route_by_intent (some "asking_question") = "handle_asking_question" ∧
    route_by_intent (some "question_related_query") = "handle_asking_question" ∧
    route_by_intent (some "greeting") = "handle_greeting" ∧
    route_by_intent (some "off_topic") = "handle_off_topic" ∧
    route_by_intent none = "handle_clarification" ∧
    (∀ s : String,
        s ∉ (["answering", "clarification", "asking_question",
              "question_related_query", "greeting", "off_topic"] : List String) →
        route_by_intent (some s) = "handle_clarification") ∧
    (∀ i : Option String,
        route_by_intent i ∈ (["extract_qchat_answer", "handle_clarification",
            "handle_asking_question", "handle_greeting",
            "handle_off_topic"] : List String)) := by
  refine ⟨rfl, rfl, rfl, rfl, rfl, rfl, rfl, ?_, ?_⟩
  · intro s hs
    simp only [List.mem_cons, List.not_mem_nil, or_false, not_or] at hs
    obtain ⟨h1, h2, h3, h4, h5, h6⟩ := hs
    simp only [route_by_intent, Option.getD_some, routing_map, List.lookup]
    repeat' split
    all_goals simp_all [beq_iff_eq]
  · intro i
    cases i with
    | none => decide
    | some s =>
      simp only [route_by_intent, Option.getD_some, routing_map, List.lookup]
      repeat' split
      all_goals simp

/-- Witness for C4: the out-of-set intent `skip` routes to
clarification. -/
theorem route_by_intent_spec_witness :
    ("skip" ∉ (["answering", "clarification", "asking_question",
        "question_related_query", "greeting", "off_topic"] : List String)) ∧
    route_by_intent (some "skip") = "handle_clarification" :=
  ⟨by decide, route_by_intent_spec.2.2.2.2.2.2.2.1 "skip" (by decide)⟩

/-- **C5.** Whenever the classifier invocation raises any internal
error, `classify_intent_node` returns intent `"answering"` and emotion
`"neutral"` instead of propagating; whenever the extractor invocation
raises any internal error, `extract_qchat_answer_node` behaves as for an
unclear result: option `"unclear"`, confidence `0.0`,
`is_answer_complete = false`, `current_message` cleared.  Both node
embeddings are total functions, so no exception reaches the caller. -/
theorem chain_failure_fallback_spec (e : Unit) (st : AssistantState) :
    classify_intent_node (.error e) =
      { StateUpdate.empty with
          last_intent := some "answering"
          last_emotion := some "neutral" } ∧
    (extract_qchat_answer_node st (.error e)).extracted_option = some "unclear" ∧
    (extract_qchat_answer_node st (.error e)).extraction_confidence = some 0 ∧
    (extract_qchat_answer_node st (.error e)).is_answer_complete = some false ∧
    (extract_qchat_answer_node st (.error e)).current_message = some "" :=
  ⟨rfl, rfl, rfl, rfl, rfl⟩

/-- **C7.** The claim says the conversation state exposes an attempt
counter incremented on each unclear extraction, with an `"unanswered"`
terminal signal once the cap is exceeded.  The code does neither:
`QChatAssistantState` declares no attempt field (see `AssistantState`),
and `extract_qchat_answer_node` — proved here — returns, on an unclear
result, exactly the five keys `extracted_option`/`extraction_confidence`/
`extraction_reasoning`/`is_answer_complete`/`current_message` (no counter
update of any kind), and can never report a complete answer with option
`"unanswered"`; so the caller's `attempt_count` bookkeeping and its
`extracted_option == "unanswered"` branch in `main.py` are unreachable. -/
theorem extract_never_unanswered_spec (st : AssistantState)
    (oe : Except Unit ExtractionResult) (c : Option Rat) (s : Option String) :
    ¬((extract_qchat_answer_node st oe).is_answer_complete = some true ∧
      (extract_qchat_answer_node st oe).extracted_option = some "unanswered") ∧
    extract_qchat_answer_node st (.ok ⟨some "unclear", c, s⟩) =
      { StateUpdate.empty with
          extracted_option := some "unclear"
          extraction_confidence := some (c.getD 0)
          extraction_reasoning := some (s.getD "")
          is_answer_complete := some false
          current_message := some "" } := by
  constructor
  · rintro ⟨h1, h2⟩
    cases oe with
    | error e => simp [extract_qchat_answer_node] at h1
    | ok r =>
      simp only [extract_qchat_answer_node] at h1 h2
      split at h1
      · next hc =>
          rw [if_pos hc] at h2
          simp only [Option.some_inj] at h2
          rw [h2] at hc
          simp at hc
      · simp at h1
  · rfl

/-- Every exit of `handle_clarification_node` clears `current_message`. -/
lemma clarification_clears (st : AssistantState)
    (oc : Except Unit ClarificationResult) :
    (handle_clarification_node st oc).current_message = some "" := by
  cases oc with
  | ok r =>
      simp only [handle_clarification_node]
      split <;> rfl
  | error e => rfl

/-- Every exit of `handle_greeting_node` clears `current_message`. -/
lemma greeting_clears (st : AssistantState) (ow : Except Unit WelcomeResult) :
    (handle_greeting_node st ow).current_message = some "" := by
  cases ow <;> rfl

/-- Every exit of `handle_off_topic_node` clears `current_message`. -/
lemma off_topic_clears (st : AssistantState) (og : Except Unit RedirectResult) :
    (handle_off_topic_node st og).current_message = some "" := by
  cases og <;> rfl

/-- The unclear and error exits of `extract_qchat_answer_node` clear
`current_message`. -/
lemma extract_unclear_clears (st : AssistantState)
    (oe : Except Unit ExtractionResult)
    (h : (extract_qchat_answer_node st oe).is_answer_complete = some false) :
    (extract_qchat_answer_node st oe).current_message = some "" := by
  cases oe with
  | error e => rfl
  | ok r =>
      simp only [extract_qchat_answer_node] at h ⊢
      split at h
      · next hc => rw [if_pos hc]; simp at h
      · next hc => rw [if_neg hc]

/-- **C6, as stated, is false**: the successful-extraction exit of the
extract step does not clear `current_message` — the returned dict omits
the key entirely (`none`), rather than setting it to `""`. -/
theorem extract_success_keeps_current_message :
    ((extract_qchat_answer_node
        ⟨some 10, some "en", some "Q10", some [], some [], some "He stares at nothing",
          some "Sara", some "Adam"⟩
        (.ok ⟨some "A", some 1, some "clear description"⟩)).is_answer_complete
      = some true) ∧
    ((extract_qchat_answer_node
        ⟨some 10, some "en", some "Q10", some [], some [], some "He stares at nothing",
          some "Sara", some "Adam"⟩
        (.ok ⟨some "A", some 1, some "clear description"⟩)).extracted_option
      = some "A") ∧
    ((extract_qchat_answer_node
        ⟨some 10, some "en", some "Q10", some [], some [], some "He stares at nothing",
          some "Sara", some "Adam"⟩
        (.ok ⟨some "A", some 1, some "clear description"⟩)).current_message
      = none) ∧
    ¬((extract_qchat_answer_node
        ⟨some 10, some "en", some "Q10", some [], some [], some "He stares at nothing",
          some "Sara", some "Adam"⟩
        (.ok ⟨some "A", some 1, some "clear description"⟩)).current_message
      = some "") := by
  refine ⟨rfl, rfl, rfl, ?_⟩
  intro h
  exact Option.noConfusion h

/-- **C6 (amended).** Every reachable exit of the clarification,
asking-question, greeting and off-topic handlers, and the unclear and
error exits of the extract step, set `current_message` to `""`.  The
successful-extraction exit (result one of A–E) instead leaves
`current_message` unset (the update omits the key), while setting
`extracted_option`, marking `is_answer_complete = true`, and appending
an acknowledgment that names the chosen letter, and the parent when a
parent name is present. -/
theorem handler_exits_clear_spec (st : AssistantState)
    (oc : Except Unit ClarificationResult) (ow : Except Unit WelcomeResult)
    (og : Except Unit RedirectResult) (oe : Except Unit ExtractionResult)
    (r : ExtractionResult) :
    (handle_clarification_node st oc).current_message = some "" ∧
    (handle_asking_question_node st oc).current_message = some "" ∧
    (handle_greeting_node st ow).current_message = some "" ∧
    (handle_off_topic_node st og).current_message = some "" ∧
    ((extract_qchat_answer_node st oe).is_answer_complete = some false →
        (extract_qchat_answer_node st oe).current_message = some "") ∧
    (r.option.getD "unclear" ∈ (["A", "B", "C", "D", "E"] : List String) →
      (extract_qchat_answer_node st (.ok r)).extracted_option =
          some (r.option.getD "unclear") ∧
      (extract_qchat_answer_node st (.ok r)).is_answer_complete = some true ∧
      (extract_qchat_answer_node st (.ok r)).current_message = none ∧
      ∃ ack,
        (extract_qchat_answer_node st (.ok r)).bot_response = some ack ∧
        (extract_qchat_answer_node st (.ok r)).conversation_history =
          some (st.conversation_history.getD [] ++ [⟨"assistant", ack⟩]) ∧
        (∃ x y, ack = x ++ r.option.getD "unclear" ++ y) ∧
        (st.parent_name.getD "" ≠ "" →
          ∃ x y, ack = x ++ st.parent_name.getD "" ++ y)) := by
  refine ⟨clarification_clears st oc, clarification_clears st oc,
    greeting_clears st ow, off_topic_clears st og,
    extract_unclear_clears st oe, ?_⟩
  intro hmem
  have hmem' : r.option.getD "unclear" = "A" ∨ r.option.getD "unclear" = "B" ∨
      r.option.getD "unclear" = "C" ∨ r.option.getD "unclear" = "D" ∨
      r.option.getD "unclear" = "E" := by
    simpa [List.mem_cons] using hmem
  have hne : (r.option.getD "unclear" != "unclear") = true := by
    rcases hmem' with h | h | h | h | h <;> rw [h] <;> rfl
  have hcontains :
      (["A", "B", "C", "D", "E"]).contains (r.option.getD "unclear") = true := by
    rcases hmem' with h | h | h | h | h <;> rw [h] <;> rfl
  have hc : (r.option.getD "unclear" != "unclear"
      && (["A", "B", "C", "D", "E"]).contains (r.option.getD "unclear")) = true := by
    rw [Bool.and_eq_true]
    exact ⟨hne, hcontains⟩
  simp only [extract_qchat_answer_node]
  rw [if_pos hc]
  refine ⟨rfl, rfl, rfl, ?_⟩
  by_cases hl : (st.language.getD "en" == "ar") = true
  · rw [if_pos hl]
    refine ⟨_, rfl, rfl, ?_, ?_⟩
    · exact ⟨"شكراً لك" ++ (if st.parent_name.getD "" != "" then
        " " ++ st.parent_name.getD "" else "") ++ "! لقد فهمت. سأسجل الخيار ", ".", rfl⟩
    · intro hp
      have hp' : (st.parent_name.getD "" != "") = true := by
        simpa [bne_iff_ne] using hp
      rw [if_pos hp']
      exact ⟨"شكراً لك" ++ " ",
        "! لقد فهمت. سأسجل الخيار " ++ r.option.getD "unclear" ++ ".",
        by simp only [String.append_assoc]⟩
  · rw [if_neg hl]
    refine ⟨_, rfl, rfl, ?_, ?_⟩
    · exact ⟨"Thank you" ++ (if st.parent_name.getD "" != "" then
        " " ++ st.parent_name.getD "" else "") ++ "! I understand. I'll record Option ",
        ".", rfl⟩
    · intro hp
      have hp' : (st.parent_name.getD "" != "") = true := by
        simpa [bne_iff_ne] using hp
      rw [if_pos hp']
      exact ⟨"Thank you" ++ " ",
        "! I understand. I'll record Option " ++ r.option.getD "unclear" ++ ".",
        by simp only [String.append_assoc]⟩

/-- Witness for C6 (amended): concrete state and outcomes, successful
extraction of option B. -/
theorem handler_exits_clear_spec_witness :
    (("B" : String) ∈ (["A", "B", "C", "D", "E"] : List String)) ∧
    ((extract_qchat_answer_node
        ⟨some 2, some "en", some "Q2", some [], some [], some "msg", some "Lina", some "Omar"⟩
        (.ok ⟨some "B", some 1, some "why"⟩)).is_answer_complete = some true) := by
  have h := handler_exits_clear_spec
    ⟨some 2, some "en", some "Q2", some [], some [], some "msg", some "Lina", some "Omar"⟩
    (.ok ⟨some "clarify"⟩) (.ok ⟨some "welcome"⟩) (.ok ⟨some "redirect"⟩)
    (.ok ⟨some "B", some 1, some "why"⟩) ⟨some "B", some 1, some "why"⟩
  exact ⟨by decide, (h.2.2.2.2.2 (by decide)).2.1⟩

/-- **C9.** When the await-input step receives a non-empty user message
whose exact content already appears with role `"user"` among the last 3
history entries, it does not append a second user turn; consequently
feeding the identical message twice in a row leaves exactly one appended
user turn in the history. -/
theorem await_user_input_dedup_spec (h : List ChatMessage) (m : String)
    (hm : m ≠ "") :
    ((∃ msg ∈ last_n 3 h, msg.role = "user" ∧ msg.content = m) →
        (await_user_input_node h m).conversation_history = some h) ∧
    ((¬ ∃ msg ∈ last_n 3 h, msg.role = "user" ∧ msg.content = m) →
        (await_user_input_node h m).conversation_history =
          some (h ++ [⟨"user", m⟩]) ∧
        (await_user_input_node (h ++ [⟨"user", m⟩]) m).conversation_history =
          some (h ++ [⟨"user", m⟩])) := by
  have hb : (m != "") = true := by simpa [bne_iff_ne] using hm
  constructor
  · rintro ⟨msg, hmem, hrole, hcontent⟩
    have hdup : (last_n 3 h).any
        (fun msg => msg.role == "user" && msg.content == m) = true :=
      List.any_eq_true.2 ⟨msg, hmem, by simp [hrole, hcontent]⟩
    simp only [await_user_input_node, hdup]
    simp
  · intro hnot
    have hdup : (last_n 3 h).any
        (fun msg => msg.role == "user" && msg.content == m) = false := by
      rw [← Bool.not_eq_true]
      intro hx
      rcases List.any_eq_true.1 hx with ⟨msg, hmem, hp⟩
      simp only [Bool.and_eq_true] at hp
      obtain ⟨h1, h2⟩ := hp
      exact hnot ⟨msg, hmem, beq_iff_eq.1 h1, beq_iff_eq.1 h2⟩
    constructor
    · simp only [await_user_input_node, hdup]
      simp [hb]
    · have hx : (⟨"user", m⟩ : ChatMessage) ∈ last_n 3 (h ++ [⟨"user", m⟩]) := by
        unfold last_n
        rw [List.drop_append_of_le_length (by simp)]
        exact List.mem_append_right _ (by simp)
      have hdup2 : (last_n 3 (h ++ [⟨"user", m⟩])).any
          (fun msg => msg.role == "user" && msg.content == m) = true :=
        List.any_eq_true.2 ⟨_, hx, by simp⟩
      simp only [await_user_input_node, hdup2]
      simp

/-- Witness for C9: feeding `"hi"` twice into an empty history appends
exactly one user turn. -/
theorem await_user_input_dedup_spec_witness :
    (¬ ∃ msg ∈ last_n 3 ([] : List ChatMessage),
        msg.role = "user" ∧ msg.content = "hi") ∧
    (await_user_input_node [] "hi").conversation_history =
      some [⟨"user", "hi"⟩] ∧
    (await_user_input_node [⟨"user", "hi"⟩] "hi").conversation_history =
      some [⟨"user", "hi"⟩] := by
  have hempty : ¬ ∃ msg ∈ last_n 3 ([] : List ChatMessage),
      msg.role = "user" ∧ msg.content = "hi" := by
    simp [last_n]
  have h := (await_user_input_dedup_spec [] "hi" (by decide)).2 hempty
  exact ⟨hempty, by simpa using h.1, by simpa using h.2⟩

end QCHAT
